import Mathlib

/-!
Verification of the `sdfgen` Python binding (`src/python/module.py`) for the
microkit_sdf_gen resource-topology compiler.

The Python module is a thin ctypes layer over a native engine (`libsdfgen`,
built from Zig; its source is not part of the Python package).  We embed:

* the ctypes value conversions the binding declares (`restype = c_uint8`,
  `restype = c_bool`), Python truthiness and Python `bool == int` comparison,
  because several behaviours of the wrapper are decided exactly by those
  conversions;
* the wrapper functions themselves (`add_child_pd`, `Channel.__init__`,
  `ProtectionDomain.__init__`, `DeviceTree.node` / `Node.__init__`,
  `Sddf.Network.add_client_with_copier`, the per-class `connect`), translated
  line by line from `module.py`;
* the engine-side behaviour that the wrapper delegates to (the child-ID
  allocator, the connect state machine, the XML renderer), modelled from the
  specification because the engine source is not in the repository snapshot.
  Every such definition carries a doc comment starting `Modelled from the
  spec:`.
-/

/-! ## Python / ctypes value semantics -/

/-- ctypes conversion for a foreign function declared with
`restype = c_uint8`: the returned C value is truncated to one byte and
surfaces in Python as an `int`; it is never `None`.  We model the Python-level
result as `Option Nat` (with `none` standing for Python `None`) to be able to
state what the wrapper's `is None` test can observe. -/
def ctypes_ret_u8 (raw : Nat) : Option Nat :=
  some (raw % 256)

/-- ctypes conversion for a foreign function declared with
`restype = c_bool`: any nonzero C return value becomes Python `True`, zero
becomes `False`.  The numeric return code of the engine is collapsed. -/
def ctypes_ret_bool (code : Nat) : Bool :=
  code != 0

/-- Python equality `b == n` between a `bool` and an `int`: Python treats
`False` as `0` and `True` as `1`. -/
def pyBoolEqNat (b : Bool) (n : Nat) : Bool :=
  (if b then 1 else 0) == n

/-- Python truthiness of an optional integer, as used by
`... if child_id else None` in `add_child_pd`: `None` is falsy and so is the
integer `0`. -/
def pyTruthyOptNat : Option Nat → Bool
  | none => false
  | some n => n != 0

/-! ## Child-ID allocation (`ProtectionDomain.add_child_pd`) -/

/-- Allocation failures of the engine's bounded-range ID allocator. -/
inductive AllocError where
  | Collision : AllocError
  | Exhausted : AllocError
deriving DecidableEq, Repr

/-- Lowest value in `0 .. 255` not in `taken`, if any. -/
def lowestUnused (taken : List Nat) : Option Nat :=
  (List.range 256).find? (fun i => !(taken.contains i))

/-- Modelled from the spec: the engine's Resource ID Allocator
(`allocate(scope, requested)`), missing from the snapshot together with the
rest of the native engine.  If `requested` is given and already taken in the
scope it fails with `Collision`; if absent it returns the lowest unused value
in `0 .. 255`, failing with `Exhausted` when the range is full. -/
def allocate (taken : List Nat) : Option Nat → Except AllocError Nat
  | some r => if taken.contains r then Except.error AllocError.Collision else Except.ok r
  | none =>
    match lowestUnused taken with
    | some v => Except.ok v
    | none => Except.error AllocError.Exhausted

/-- The requested-ID argument that `add_child_pd` actually hands to the
engine.  Source line:
`c_child_id = byref(c_uint8(child_id)) if child_id else None`.
The condition is Python truthiness of `child_id`, so `child_id = 0` takes the
`None` branch; a forwarded value is truncated by the `c_uint8` constructor. -/
def add_child_pd_requested (child_id : Option Nat) : Option Nat :=
  if pyTruthyOptNat child_id then child_id.map (fun n => n % 256) else none

/-- `add_child_pd` end to end: the wrapper's requested-ID conversion composed
with the (spec-modelled) engine allocator over the set of child IDs already
taken in the parent scope. -/
def add_child_pd_model (taken : List Nat) (child_id : Option Nat) : Except AllocError Nat :=
  allocate taken (add_child_pd_requested child_id)

/-- The body of `add_child_pd` after the foreign call, given the raw C return
value: `returned_id` comes through the `restype = c_uint8` conversion, the
wrapper raises `Could not allocate child PD ID` when `returned_id is None`,
and otherwise returns it. -/
def add_child_pd_binding (raw : Nat) : Except String Nat :=
  let returned_id := ctypes_ret_u8 raw
  if returned_id.isNone then
    Except.error "Could not allocate child PD ID"
  else
    Except.ok (returned_id.getD 0)

/-! ## Channel construction (`SystemDescription.Channel.__init__`) -/

/-- The argument record of the one engine call that `Channel.__init__` makes:
`sdfgen_channel_create(a._obj, b._obj)`.  Protection-domain handles are
modelled as naturals. -/
structure ChannelCreate where
  a : Nat
  b : Nat
deriving DecidableEq, Repr

/-- `Channel.__init__(a, b, pp_a, pp_b, notify_a, notify_b)` translated from
the source: the four boolean flags are accepted as parameters but the body
only runs `self._obj = libsdfgen.sdfgen_channel_create(a._obj, b._obj)`
(the flags appear nowhere else; the source carries a `TODO: handle options`
comment). -/
def Channel_init (a b : Nat) (pp_a pp_b notify_a notify_b : Bool) : ChannelCreate :=
  ChannelCreate.mk a b

/-! ## Protection-domain construction (`ProtectionDomain.__init__`) -/

/-- Engine calls that `ProtectionDomain.__init__` can make, in the order the
source makes them. -/
inductive PdCall where
  | create (name program_image : String) : PdCall
  | set_priority (n : Nat) : PdCall
  | set_budget (n : Nat) : PdCall
  | set_period (n : Nat) : PdCall
  | set_stack_size (n : Nat) : PdCall
deriving DecidableEq, Repr

/-- The trace of engine calls made by `ProtectionDomain.__init__`: first
`sdfgen_pd_create(name, program_image)`, then one setter call per scheduling
parameter that is not `None`, each guarded by its own `if x is not None`. -/
def ProtectionDomain_init_calls (name program_image : String)
    (priority budget period stack_size : Option Nat) : List PdCall :=
  [PdCall.create name program_image]
    ++ (match priority with | some p => [PdCall.set_priority p] | none => [])
    ++ (match budget with | some b => [PdCall.set_budget b] | none => [])
    ++ (match period with | some p => [PdCall.set_period p] | none => [])
    ++ (match stack_size with | some s => [PdCall.set_stack_size s] | none => [])

/-! ## Device tree (`DeviceTree`, `DeviceTree.Node`) -/

/-- The Python `DeviceTree` object: `_bytes` keeps the caller-supplied buffer
alive (the source stores it explicitly so it is not freed by GC), `_obj` is
the engine handle from `sdfgen_dtb_parse_from_bytes`. -/
structure PyDeviceTree where
  bytes : List Nat
  obj : Nat
deriving DecidableEq, Repr

/-- `DeviceTree.__init__(data)`: stores `data` in `self._bytes` and parses it
through the engine (the engine parse is abstracted as the function
`parse`). -/
def DeviceTree_init (parse : List Nat → Nat) (data : List Nat) : PyDeviceTree :=
  { bytes := data, obj := parse data }

/-- The Python `DeviceTree.Node` object: its `_obj` field as assigned by
`Node.__init__` (`Option` because the foreign lookup has `restype = c_void_p`
and can be `None`). -/
structure PyNode where
  obj : Option Nat
deriving DecidableEq, Repr

/-- `Node.__init__(device_tree, node)`: assigns
`self._obj = sdfgen_dtb_node(device_tree._obj, node)` and raises when the
result `is None`.  The engine lookup is abstracted as `lookup` (handle and
path to optional node handle). -/
def Node_init (lookup : Nat → String → Option Nat) (dtObj : Nat) (node : String) :
    Except String PyNode :=
  let o := lookup dtObj node
  if o.isNone then
    Except.error ("could not find DTB node " ++ node)
  else
    Except.ok { obj := o }

/-- `DeviceTree.node(name)`: returns `DeviceTree.Node(self, name)`. -/
def DeviceTree_node (lookup : Nat → String → Option Nat) (dt : PyDeviceTree)
    (name : String) : Except String PyNode :=
  Node_init lookup dt.obj name

/-- One `node` call viewed as a state transition on the `DeviceTree` object:
the lookup reads `dt.obj` and neither assigns to `_bytes` nor to `_obj`, so
the object is returned unchanged next to the lookup result. -/
def DeviceTree_node_step (lookup : Nat → String → Option Nat) (dt : PyDeviceTree)
    (name : String) : Except String PyNode × PyDeviceTree :=
  (DeviceTree_node lookup dt name, dt)

/-- A whole sequence of `node` calls threaded through the `DeviceTree`
object's state. -/
def DeviceTree_run_lookups (lookup : Nat → String → Option Nat) (dt : PyDeviceTree) :
    List String → PyDeviceTree
  | [] => dt
  | n :: ns => DeviceTree_run_lookups lookup (DeviceTree_node_step lookup dt n).2 ns

/-! ## Network subsystem (`Sddf.Network.add_client_with_copier`) -/

/-- The exceptions `add_client_with_copier` can raise, with the data their
messages interpolate. -/
inductive NetErr where
  | malformedLength : NetErr
  | duplicateMac (mac : Option String) : NetErr
  | duplicateClient (client : Nat) : NetErr
  | duplicateCopier (copier : Nat) : NetErr
  | internalError : NetErr
deriving DecidableEq, Repr

/-- Outcome of one `add_client_with_copier` call: whether the foreign engine
function was reached (no mutation can have happened when it was not), and the
Python-level result. -/
structure NetCallResult where
  engine_called : Bool
  result : Except NetErr Unit
deriving Repr

/-- `Sddf.Network.add_client_with_copier(client, copier, mac_addr)` translated
from the source.  The wrapper first checks
`if mac_addr is not None and len(mac_addr) != 17: raise`, then calls the
engine (whose numeric return code is the parameter `code`; its declared
`restype` is `c_bool`, so the wrapper sees `ctypes_ret_bool code`), then
dispatches on `ret == 0`, `ret == 1`, `ret == 2`, `ret == 3` using Python
bool-int equality. -/
def add_client_with_copier (client copier : Nat) (mac_addr : Option String)
    (code : Nat) : NetCallResult :=
  if (match mac_addr with | some s => s.length != 17 | none => false) then
    { engine_called := false, result := Except.error NetErr.malformedLength }
  else
    let ret := ctypes_ret_bool code
    { engine_called := true
      result :=
        if pyBoolEqNat ret 0 then Except.ok ()
        else if pyBoolEqNat ret 1 then Except.error (NetErr.duplicateMac mac_addr)
        else if pyBoolEqNat ret 2 then Except.error (NetErr.duplicateClient client)
        else if pyBoolEqNat ret 3 then Except.error (NetErr.duplicateCopier copier)
        else Except.error NetErr.internalError }

/-- Hexadecimal digit test for MAC-address characters. -/
def isHexChar (c : Char) : Bool :=
  c.isDigit || (('a' ≤ c) && (c ≤ 'f')) || (('A' ≤ c) && (c ≤ 'F'))

/-- Stated from the spec's words, for comparison with the source-derived
check: a textually well-formed MAC address is 17 characters of colon-separated
hex, i.e. positions 2, 5, 8, 11, 14 hold a colon and every other position a
hex digit. -/
def spec_macWellFormed (s : String) : Bool :=
  s.length == 17 &&
    (List.range 17).all (fun i =>
      if i % 3 == 2 then s.data.getD i ' ' == ':'
      else isHexChar (s.data.getD i ' '))

/-! ## Subsystem connect protocol -/

/-- The part of the `SystemDescription` topology a subsystem's connect step
extends: committed channels (pairs of protection-domain handles) and memory
regions (handles). -/
structure Topo where
  channels : List (Nat × Nat)
  regions : List Nat
deriving DecidableEq, Repr

/-- Engine-side state of one subsystem builder: whether `connect` has already
run, and the channels and regions the subsystem commits when it runs. -/
structure SubState where
  connected : Bool
  chans : List (Nat × Nat)
  regs : List Nat
deriving DecidableEq, Repr

/-- Modelled from the spec: the engine's per-class connect step, missing from
the snapshot together with the rest of the native engine.  All five classes
follow the common protocol: `connect()` is single-use; once the subsystem is
Connected a further call is a ProtocolViolation, reported through the
`c_bool` return of the foreign function as `false`, and commits nothing;
a first call commits the subsystem's channels and regions into the topology
and moves the builder to Connected. -/
def sddf_connect_engine (t : Topo) (s : SubState) : Bool × Topo × SubState :=
  if s.connected then
    (false, t, s)
  else
    (true,
      { channels := t.channels ++ s.chans, regions := t.regions ++ s.regs },
      { s with connected := true })

/-- The five sDDF device classes whose Python builders expose `connect`. -/
inductive SddfClass where
  | serial : SddfClass
  | i2c : SddfClass
  | block : SddfClass
  | network : SddfClass
  | timer : SddfClass
deriving DecidableEq, Repr

/-- The Python `connect` of each builder class delegates to its class-specific
engine connect (`sdfgen_sddf_serial_connect` and so on), each an instance of
the common spec-modelled protocol. -/
def class_connect : SddfClass → Topo → SubState → Bool × Topo × SubState
  | SddfClass.serial => sddf_connect_engine
  | SddfClass.i2c => sddf_connect_engine
  | SddfClass.block => sddf_connect_engine
  | SddfClass.network => sddf_connect_engine
  | SddfClass.timer => sddf_connect_engine

/-! ## XML rendering (`SystemDescription.xml`) -/

/-- The state of a `SystemDescription` the renderer reads: architecture,
top physical address, registered protection domains in insertion order
(name and program image), and channels in insertion order. -/
structure SysDesc where
  arch : Nat
  paddr_top : Nat
  pds : List (String × String)
  channels : List (Nat × Nat)
deriving DecidableEq, Repr

/-- Modelled from the spec: the engine's `sdfgen_to_xml` renderer, missing
from the snapshot together with the rest of the native engine.  `render()` is
a pure function of the current state with no hidden counters; we give one
concrete structural dump (architecture, physical address bound, domain list,
channel list, in registration order). -/
def renderSysDesc (s : SysDesc) : String :=
  "arch=" ++ toString s.arch
    ++ ";paddr_top=" ++ toString s.paddr_top
    ++ ";pds=" ++ String.intercalate "," (s.pds.map (fun p => p.1 ++ ":" ++ p.2))
    ++ ";channels="
    ++ String.intercalate "," (s.channels.map (fun c => toString c.1 ++ "-" ++ toString c.2))

/-- `SystemDescription.xml()`: calls `sdfgen_to_xml(self._obj)` and decodes
the bytes; viewed as a state transition it returns the rendered text and
leaves the state untouched (no hidden counters). -/
def SystemDescription_xml (s : SysDesc) : String × SysDesc :=
  (renderSysDesc s, s)

/-! ## Claim theorems -/

/-- C1: for every subsystem builder class (Serial, I2C, Block, Network,
Timer), once `connect()` has succeeded, a second `connect()` call fails (the
ProtocolViolation is reported through the boolean return as `false`, not
silently ignored) and duplicates no channels or regions: the topology and the
builder state after the second call equal those after the first. -/
theorem C1_connect_single_use (c : SddfClass) (t : Topo) (s : SubState)
    (h : (class_connect c t s).1 = true) :
    class_connect c (class_connect c t s).2.1 (class_connect c t s).2.2
      = (false, (class_connect c t s).2.1, (class_connect c t s).2.2) := by
  have hc : class_connect c = sddf_connect_engine := by cases c <;> rfl
  rw [hc] at h ⊢
  by_cases hs : s.connected
  · simp [sddf_connect_engine, hs] at h
  · simp [sddf_connect_engine, hs]

/-- Witness for C1 at a concrete timer subsystem with one pending channel. -/
theorem C1_connect_single_use_witness :
    (class_connect SddfClass.timer (Topo.mk [] []) (SubState.mk false [(1, 2)] [5])).1
        = true ∧
    class_connect SddfClass.timer
        (class_connect SddfClass.timer (Topo.mk [] []) (SubState.mk false [(1, 2)] [5])).2.1
        (class_connect SddfClass.timer (Topo.mk [] []) (SubState.mk false [(1, 2)] [5])).2.2
      = (false,
          (class_connect SddfClass.timer (Topo.mk [] []) (SubState.mk false [(1, 2)] [5])).2.1,
          (class_connect SddfClass.timer (Topo.mk [] []) (SubState.mk false [(1, 2)] [5])).2.2) :=
  ⟨by decide,
    C1_connect_single_use SddfClass.timer (Topo.mk [] []) (SubState.mk false [(1, 2)] [5])
      (by decide)⟩

/-- C2 (code bug): `add_child_pd` does not forward a requested child ID of
`0`.  The guard `if child_id` uses Python truthiness, so `child_id = 0` takes
the `None` branch and the engine allocator auto-assigns instead: with ID `0`
already taken, the call returns `1` instead of failing with Collision, which
forwarding (third conjunct) would have produced. -/
theorem C2_add_child_pd_zero_dropped :
    add_child_pd_requested (some 0) = none ∧
    add_child_pd_model [0] (some 0) = Except.ok 1 ∧
    allocate [0] (some 0) = Except.error AllocError.Collision :=
  ⟨rfl, rfl, rfl⟩

/-- C3 counterexample: the 17-character string of `z` and colons is not
well-formed colon-separated hex, yet `add_client_with_copier` does not raise
before reaching the engine: the wrapper checks only the length. -/
theorem C3_mac_check_counterexample :
    spec_macWellFormed "zz:zz:zz:zz:zz:zz" = false ∧
    (add_client_with_copier 7 8 (some "zz:zz:zz:zz:zz:zz") 0).engine_called = true ∧
    (add_client_with_copier 7 8 (some "zz:zz:zz:zz:zz:zz") 0).result = Except.ok () :=
  ⟨by decide, rfl, rfl⟩

/-- C3 (amended): `add_client_with_copier` raises before any engine call
(hence before any state mutation) exactly when a MAC string is supplied whose
length differs from 17; content beyond the length (colons, hex digits) is not
checked by the wrapper. -/
theorem C3_mac_check_length_only (client copier : Nat) (mac_addr : Option String)
    (code : Nat) :
    ((add_client_with_copier client copier mac_addr code).engine_called = false ∧
      (add_client_with_copier client copier mac_addr code).result
        = Except.error NetErr.malformedLength)
      ↔ ∃ s, mac_addr = some s ∧ s.length ≠ 17 := by
  cases mac_addr with
  | none => simp [add_client_with_copier]
  | some s =>
    by_cases h : s.length = 17
    · simp [add_client_with_copier, h]
    · simp [add_client_with_copier, h]

/-- C4 counterexample: two channels built over the same endpoints with
opposite values of all four flags are equal — the flags are not recorded, so
channels built with different flag values do not differ. -/
theorem C4_channel_flags_counterexample :
    Channel_init 1 2 false false true true = Channel_init 1 2 true true false false :=
  rfl

/-- C4 (amended): `Channel.__init__` accepts the four flags `pp_a`, `pp_b`,
`notify_a`, `notify_b` but does not record or convey them: the engine call is
`sdfgen_channel_create(a, b)` and the constructed channel is determined by the
two protection-domain endpoints alone, so channels built with different flag
values do not differ. -/
theorem C4_channel_flags_ignored (a b : Nat)
    (pp_a pp_b notify_a notify_b pp_a2 pp_b2 notify_a2 notify_b2 : Bool) :
    Channel_init a b pp_a pp_b notify_a notify_b
        = Channel_init a b pp_a2 pp_b2 notify_a2 notify_b2 ∧
    Channel_init a b pp_a pp_b notify_a notify_b = ChannelCreate.mk a b :=
  ⟨rfl, rfl⟩

/-- C5 (code bug): the foreign declaration of
`sdfgen_sddf_net_add_client_with_copier` has `restype = c_bool`, which
collapses every nonzero engine code to Python `True`; since `True == 1`, the
engine codes `2` (duplicate client) and `3` (duplicate copier) are reported
as a duplicate-MAC error and the dedicated branches are unreachable.  Code
`0` still returns normally. -/
theorem C5_error_code_collapse :
    (add_client_with_copier 7 8 none 2).result = Except.error (NetErr.duplicateMac none) ∧
    (add_client_with_copier 7 8 none 3).result = Except.error (NetErr.duplicateMac none) ∧
    (add_client_with_copier 7 8 none 0).result = Except.ok () :=
  ⟨rfl, rfl, rfl⟩

/-- C6: `DeviceTree.node(path)` either raises the not-found error (exactly
when the engine lookup returns `None`) or returns a `Node` whose handle is
the non-null engine result; it never returns a node with a null or ambiguous
handle. -/
theorem C6_node_dichotomy (lookup : Nat → String → Option Nat) (dt : PyDeviceTree)
    (name : String) :
    (lookup dt.obj name = none ∧
      DeviceTree_node lookup dt name
        = Except.error ("could not find DTB node " ++ name)) ∨
    (∃ h, lookup dt.obj name = some h ∧
      DeviceTree_node lookup dt name = Except.ok (PyNode.mk (some h))) := by
  cases hl : lookup dt.obj name with
  | none =>
    exact Or.inl ⟨rfl, by simp [DeviceTree_node, Node_init, hl]⟩
  | some h =>
    exact Or.inr ⟨h, rfl, by simp [DeviceTree_node, Node_init, hl]⟩

/-- C7: `xml()` is a pure read of the `SystemDescription` state: two renders
with no mutation in between produce the same text, and neither call changes
the state (no hidden counters). -/
theorem C7_xml_deterministic (s : SysDesc) :
    (SystemDescription_xml s).1 = (SystemDescription_xml (SystemDescription_xml s).2).1 ∧
    (SystemDescription_xml (SystemDescription_xml s).2).2 = s :=
  ⟨rfl, rfl⟩

/-- C8: `ProtectionDomain.__init__` makes a setter call for a scheduling
parameter exactly when that parameter is supplied; an omitted parameter gets
no call, and whether each setter is called (and with what value) depends only
on its own parameter. -/
theorem C8_pd_init_setters (name program_image : String)
    (priority budget period stack_size : Option Nat) :
    (∀ p, PdCall.set_priority p
        ∈ ProtectionDomain_init_calls name program_image priority budget period stack_size
      ↔ priority = some p) ∧
    (∀ b, PdCall.set_budget b
        ∈ ProtectionDomain_init_calls name program_image priority budget period stack_size
      ↔ budget = some b) ∧
    (∀ p, PdCall.set_period p
        ∈ ProtectionDomain_init_calls name program_image priority budget period stack_size
      ↔ period = some p) ∧
    (∀ s, PdCall.set_stack_size s
        ∈ ProtectionDomain_init_calls name program_image priority budget period stack_size
      ↔ stack_size = some s) := by
  cases priority <;> cases budget <;> cases period <;> cases stack_size <;>
    simp [ProtectionDomain_init_calls, eq_comm]

/-- C9: `DeviceTree.__init__` stores the caller-supplied buffer in the
object's own `_bytes` field, and no sequence of `node` lookups changes the
object (in particular the backing bytes stay owned and untouched for the
lifetime of the `DeviceTree`). -/
theorem C9_dtb_bytes_stable (parse : List Nat → Nat)
    (lookup : Nat → String → Option Nat) (data : List Nat) (names : List String) :
    (DeviceTree_init parse data).bytes = data ∧
    DeviceTree_run_lookups lookup (DeviceTree_init parse data) names
      = DeviceTree_init parse data := by
  have hrun : ∀ (dt : PyDeviceTree) (ns : List String),
      DeviceTree_run_lookups lookup dt ns = dt := by
    intro dt ns
    induction ns generalizing dt with
    | nil => rfl
    | cons n ns ih => simpa [DeviceTree_run_lookups, DeviceTree_node_step] using ih dt
  exact ⟨rfl, hrun _ _⟩

/-- C10: the foreign `sdfgen_pd_add_child` is declared with
`restype = c_uint8`, so its Python-level result is always an integer in
`0 .. 255` and never `None`: `add_child_pd` always returns that integer and
the branch raising `Could not allocate child PD ID` is unreachable, so
allocator exhaustion is never reported to the caller. -/
theorem C10_add_child_ret_total (raw : Nat) :
    add_child_pd_binding raw = Except.ok (raw % 256) ∧ raw % 256 < 256 := by
  refine ⟨?_, Nat.mod_lt raw (by decide)⟩
  simp [add_child_pd_binding, ctypes_ret_u8]
